import Mathlib

/-!
Verification development for the adyen-web checkout SDK slice: the
Card Secured Fields (CSF) setup entry point `initCSF`, the `Session`
(CheckoutSession) data updates, `Core.remove`, and the aggregator's
`allValid` derivation.

The TypeScript is embedded shallowly: JS objects become structures,
optional / possibly-absent properties become `Option`, JS string
falsiness becomes an explicit predicate, mutation of a local copy
becomes record update, logging becomes an explicit event list, and a
`throw` becomes an explicit `thrown` result constructor.
-/

/-- A value held in a setup object's `rootNode` property: a CSS selector
string, a direct element reference (elements are identified by a numeric
id), or the JS `undefined` value stored under a present property. -/
inductive RootNodeVal where
  | undef : RootNodeVal
  | selector : String → RootNodeVal
  | element : Nat → RootNodeVal
deriving DecidableEq, Repr

/-- The document the host page runs in: the ids of the elements that
exist in it, a selector table mapping CSS selectors to element ids, and
whether a `window.console` with an `error` method is available
(`initCSF` guards its resolution-failure log on that). -/
structure Dom where
  elements : List Nat
  selectors : List (String × Nat)
  hasConsole : Bool
deriving DecidableEq, Repr

/-- The CSF setup object (`CSFSetupObject`). Only the top-level fields
the embedded code reads or writes are modelled: `type` (absent = JS
`undefined`), the `rootNode` property (`none` = the own property is
absent, `some .undef` = present but `undefined`), and `clientKey`
(absent or a string). -/
structure CSFSetupObject where
  type : Option String
  rootNode : Option RootNodeVal
  clientKey : Option String
deriving DecidableEq, Repr

/-- JS falsiness of an optional string value, as used by
`falsy(setupObj.clientKey)`: absent (`undefined`/`null`) or the empty
string. -/
def falsy : Option String → Bool
  | none => true
  | some s => s = ""

/-- Modelled from the spec: `cardType.isGenericCardType` is not in the
source slice. Per the spec ("Generic card brands and scheme aliases are
normalized to a canonical `card` setup") and the call-site comment
("Ensure there is always a default type & map the generic types (e.g.
'card', 'scheme') to 'card'"), an absent type defaults to card-like and
the alias strings 'card' and 'scheme' are card-like; any other string is
not recognized as card-like. -/
def isGenericCardType : Option String → Bool
  | none => true
  | some t => t = "card" || t = "scheme"

/-- Modelled from the spec: `findRootNode` is not in the source slice.
Per the spec, "the container must resolve to an existing element in the
document": a direct element reference resolves iff that element exists
in the document, a selector resolves through the document's selector
table to an existing element, and `undefined` never resolves. -/
def findRootNode (dom : Dom) (rn : RootNodeVal) : Option Nat :=
  match rn with
  | .undef => none
  | .element e => if e ∈ dom.elements then some e else none
  | .selector s =>
      match dom.selectors.lookup s with
      | some e => if e ∈ dom.elements then some e else none
      | none => none

/-- Modelled from the spec: the CSF Field-Controller aggregate class
(`CSF`) is not in the source slice. `initCSF` only constructs it from
the finished setup object and asks it for its return object, so it is
modelled as the record of the props it was constructed with. -/
structure CSF where
  props : CSFSetupObject
deriving DecidableEq, Repr

/-- Modelled from the spec: the handle (`CSFReturnObject`) returned to
the external UI element, exposing subscribe-to-state, destroy and a
submit-payload accessor over the configured fields; it carries no
FrameSession internals, only the configuration it was built from. -/
structure CSFReturnObject where
  fromProps : CSFSetupObject
deriving DecidableEq, Repr

/-- Modelled from the spec: `myCSF.createReturnObject()` builds the
handle for this CSF instance. -/
def CSF.createReturnObject (c : CSF) : CSFReturnObject :=
  ⟨c.props⟩

/-- The error signals `initCSF` emits on its failure paths:
`logger.error` for the missing `rootNode` property, `logger.warn` for
the missing `clientKey`, and `window.console.error` when the root node
fails to resolve to an existing element. -/
inductive LogEvent where
  | errorRootNodeMissing : LogEvent
  | warnClientKeyMissing : LogEvent
  | errorRootNodeNotFound : LogEvent
deriving DecidableEq, Repr

/-- What a call to `initCSF` resolves to: a thrown exception escaping to
the caller, the `null` handle, or a `CSFReturnObject` handle. -/
inductive InitResult where
  | thrown : String → InitResult
  | nullHandle : InitResult
  | handle : CSFReturnObject → InitResult
deriving DecidableEq, Repr

/-- The observable outcome of one `initCSF` call: the value it resolves
to, the error signals it emitted in order, every `CSF` instance it
constructed (in construction order), and the caller's setup object as it
stands after the call (`none` when no object was passed). The last
component makes the mutation claim statable: `initCSF` spreads the
caller's object into a local copy and every subsequent assignment
targets that copy. -/
structure InitOutput where
  result : InitResult
  logs : List LogEvent
  constructedCSFs : List CSF
  callerObj : Option CSFSetupObject
deriving DecidableEq, Repr

/-- Line 18 of `initCSF`: map a type classified as generic card-like to
the canonical 'card', pass anything else through unchanged. -/
def normalizeType (t : Option String) : Option String :=
  if isGenericCardType t then some "card" else t

/-- Lines 14–18 of `initCSF`: the local shallow copy of the caller's
setup object, with its `type` normalized; no other field is touched at
this point. -/
def normalizedSetup (p : CSFSetupObject) : CSFSetupObject :=
  { p with type := normalizeType p.type }

/-- Lines 21–46 of `initCSF`, operating on the internal copy `setupObj`
(the caller's original object `p` is carried through unchanged):
1. `hasOwnProperty(setupObj, 'rootNode')` — absent property logs an
   error and returns null;
2. `falsy(setupObj.clientKey)` — a falsy client key logs a warning and
   returns null;
3. `findRootNode(setupObj.rootNode)` — a root node that does not resolve
   to an existing element logs to `window.console.error` (when present)
   and returns null;
4. otherwise the resolved element overwrites `setupObj.rootNode`, one
   `CSF` is constructed from `setupObj`, and its return object is the
   result. -/
def initCSFChecks (dom : Dom) (setupObj : CSFSetupObject) (p : CSFSetupObject) : InitOutput :=
  match setupObj.rootNode with
  | none => ⟨.nullHandle, [.errorRootNodeMissing], [], some p⟩
  | some rn =>
      if falsy setupObj.clientKey then
        ⟨.nullHandle, [.warnClientKeyMissing], [], some p⟩
      else
        match findRootNode dom rn with
        | none =>
            ⟨.nullHandle, if dom.hasConsole then [.errorRootNodeNotFound] else [], [], some p⟩
        | some el =>
            let finalObj := { setupObj with rootNode := some (.element el) }
            let myCSF : CSF := ⟨finalObj⟩
            ⟨.handle myCSF.createReturnObject, [], [myCSF], some p⟩

/-- The `initCSF` entry point. An absent (`null`/`undefined`) setup
object throws; otherwise the caller's object is shallow-copied, the
copy's type is normalized, and the precondition checks run on the copy. -/
def initCSF (dom : Dom) (pSetupObj : Option CSFSetupObject) : InitOutput :=
  match pSetupObj with
  | none => ⟨.thrown "No securedFields configuration object defined", [], [], none⟩
  | some p => initCSFChecks dom (normalizedSetup p) p

/-- The session object held by `Session` (`CheckoutSession`): its `id`
and its `data` blob (absent until set). -/
structure CheckoutSessionObj where
  id : String
  data : Option String
deriving DecidableEq, Repr

/-- The browser storage `storeSession` writes the session to. -/
structure SessionStorage where
  stored : Option CheckoutSessionObj
deriving DecidableEq, Repr

/-- The `Session` class instance state: the wrapped session object, the
client key and the loading context. -/
structure Session where
  session : CheckoutSessionObj
  clientKey : String
  loadingContext : String
deriving DecidableEq, Repr

/-- The `id` getter: `this.session.id`. -/
def Session.id (s : Session) : String :=
  s.session.id

/-- The `data` getter: `this.session.data`. -/
def Session.data (s : Session) : Option String :=
  s.session.data

/-- `storeSession()`: writes `this.session` to storage. -/
def Session.storeSession (s : Session) (_st : SessionStorage) : SessionStorage :=
  ⟨some s.session⟩

/-- `updateSessionData(latestData)`: sets `this.session.data` to the
latest data blob and stores the session. Returns the updated instance
state and storage. -/
def Session.updateSessionData (s : Session) (st : SessionStorage) (latestData : String) :
    Session × SessionStorage :=
  let s' := { s with session := { s.session with data := some latestData } }
  (s', s'.storeSession st)

/-- The resolved response of a sessions service call, as far as the
`Session` methods inspect it: the `sessionData` field (absent or a
string; the JS code guards on its truthiness). -/
structure SessionResponse where
  sessionData : Option String
deriving DecidableEq, Repr

/-- `makePayment(data)`: runs the payments service call and, when the
resolved response carries a truthy `sessionData`, updates the session
data with it; the response itself is passed through. The HTTP call is
outside this slice, so the resolved response is a parameter. -/
def Session.makePayment (s : Session) (st : SessionStorage) (response : SessionResponse) :
    Session × SessionStorage × SessionResponse :=
  if falsy response.sessionData then
    (s, st, response)
  else
    match response.sessionData with
    | some d =>
        let (s', st') := s.updateSessionData st d
        (s', st', response)
    | none => (s, st, response)

/-- `submitDetails(data)`: runs the details service call and, when the
resolved response carries a truthy `sessionData`, updates the session
data with it; the response itself is passed through. -/
def Session.submitDetails (s : Session) (st : SessionStorage) (response : SessionResponse) :
    Session × SessionStorage × SessionResponse :=
  if falsy response.sessionData then
    (s, st, response)
  else
    match response.sessionData with
    | some d =>
        let (s', st') := s.updateSessionData st d
        (s', st', response)
    | none => (s, st, response)

/-- A UI element component as `Core.remove` sees it: its `_id`. Further
component state is irrelevant to the removal logic and kept abstract as
a payload. -/
structure UIComponent where
  _id : Nat
  payload : Nat
deriving DecidableEq, Repr

/-- The outcome of `Core.remove`: the new `components` list and the list
of components on which `unmount()` was invoked, in invocation order. -/
structure RemoveResult where
  components : List UIComponent
  unmounted : List UIComponent
deriving DecidableEq, Repr

/-- `Core.remove(component)`: filters out of `this.components` every
entry whose `_id` equals the argument's `_id`, then calls
`component.unmount()` once. -/
def Core.remove (components : List UIComponent) (component : UIComponent) : RemoveResult :=
  ⟨components.filter (fun c => c._id ≠ component._id), [component]⟩

/-- Modelled from the spec: per-field derived state; only `isValid`
matters to the `allValid` aggregation. -/
structure FieldState where
  isValid : Bool
deriving DecidableEq, Repr

/-- Modelled from the spec: one secured field of the current setup — its
logical name, whether it is required (optional fields, e.g. CVC omitted
for some brands once the brand is known, carry `required := false`), and
its current FieldState. -/
structure SecuredField where
  name : String
  required : Bool
  state : FieldState
deriving DecidableEq, Repr

/-- Modelled from the spec: `CompositeState.allValid` is a pure
derivation over the current set of FieldStates — true iff every required
field's FieldState.isValid is true. It is recomputed from its inputs on
every use; no cached copy exists. -/
def allValid (fields : List SecuredField) : Bool :=
  fields.all (fun f => !f.required || f.state.isValid)

/-- Modelled from the spec: the FieldState change that sets the validity
of the field named `n` (in response to an authenticated frame message). -/
def setFieldValidity (fields : List SecuredField) (n : String) (b : Bool) :
    List SecuredField :=
  fields.map (fun f => if f.name = n then { f with state := ⟨b⟩ } else f)

/-- C5: for every setup object, `initCSF` maps a type classified as a
generic card brand or scheme alias to the canonical 'card', leaves a
type not recognized as card-like unchanged, and performs this
normalization before any further step: the precondition checks and
resolution run on the normalized copy. -/
theorem initCSF_normalizes_generic_type (dom : Dom) (p : CSFSetupObject) :
    (isGenericCardType p.type = true → (normalizedSetup p).type = some "card") ∧
    (isGenericCardType p.type = false → (normalizedSetup p).type = p.type) ∧
    initCSF dom (some p) = initCSFChecks dom (normalizedSetup p) p := by
  refine ⟨fun h => ?_, fun h => ?_, rfl⟩
  · simp [normalizedSetup, normalizeType, h]
  · simp [normalizedSetup, normalizeType, h]

/-- Witness for C5 at a concrete generic alias and a concrete
unrecognized type string. -/
theorem initCSF_normalizes_generic_type_witness :
    (normalizedSetup ⟨some "scheme", none, none⟩).type = some "card" ∧
    (normalizedSetup ⟨some "ideal", none, none⟩).type = some "ideal" :=
  ⟨(initCSF_normalizes_generic_type ⟨[], [], true⟩ ⟨some "scheme", none, none⟩).1 rfl,
    (initCSF_normalizes_generic_type ⟨[], [], true⟩ ⟨some "ideal", none, none⟩).2.1 rfl⟩

/-- Counterexample to C3 as stated: called with an absent setup object,
`initCSF` raises the 'No securedFields configuration object defined'
exception into the caller instead of resolving to a null handle. -/
theorem initCSF_absent_setup_throws :
    initCSF ⟨[], [], true⟩ none =
      ⟨.thrown "No securedFields configuration object defined", [], [], none⟩ := by
  decide

/-- C3 (amended): for every present setup object, `initCSF` resolves to
a null handle or a handle and never raises an exception; only an absent
setup object throws. -/
theorem initCSF_present_never_throws (dom : Dom) (p : CSFSetupObject) :
    ((initCSF dom (some p)).result = .nullHandle ∨
      ∃ h, (initCSF dom (some p)).result = .handle h) ∧
    ∀ msg, (initCSF dom (some p)).result ≠ .thrown msg := by
  have hcases : (initCSF dom (some p)).result = .nullHandle ∨
      ∃ h, (initCSF dom (some p)).result = .handle h := by
    unfold initCSF initCSFChecks
    rcases hrn : (normalizedSetup p).rootNode with _ | rn
    · simp [hrn]
    · rcases hck : falsy (normalizedSetup p).clientKey with _ | _
      · rcases hfind : findRootNode dom rn with _ | el
        · simp [hrn, hck, hfind]
        · simp [hrn, hck, hfind]
      · simp [hrn, hck]
  refine ⟨hcases, fun msg hmsg => ?_⟩
  rcases hcases with h | ⟨h, hh⟩
  · rw [hmsg] at h; exact InitResult.noConfusion h
  · rw [hmsg] at hh; exact InitResult.noConfusion hh

/-- Witness for C3 at a concrete input: the result of a concrete
present-setup call is not the thrown exception. -/
theorem initCSF_present_never_throws_witness :
    (initCSF ⟨[], [], true⟩ (some ⟨none, none, none⟩)).result ≠
      .thrown "No securedFields configuration object defined" :=
  (initCSF_present_never_throws ⟨[], [], true⟩ ⟨none, none, none⟩).2 _

/-- C9: `updateSessionData(latestData)` changes only the session's
`data` field (to the latest blob); the session `id` exposed by the
getter, the client key and the loading context are unchanged, and the
`id` is likewise unchanged by `makePayment` and `submitDetails`, which
only ever touch session state through `updateSessionData`. -/
theorem updateSessionData_changes_only_data (s : Session) (st : SessionStorage)
    (latestData : String) (response : SessionResponse) :
    (s.updateSessionData st latestData).1.session.data = some latestData ∧
    (s.updateSessionData st latestData).1.session.id = s.session.id ∧
    (s.updateSessionData st latestData).1.clientKey = s.clientKey ∧
    (s.updateSessionData st latestData).1.loadingContext = s.loadingContext ∧
    Session.id (s.updateSessionData st latestData).1 = Session.id s ∧
    Session.id (s.makePayment st response).1 = Session.id s ∧
    Session.id (s.submitDetails st response).1 = Session.id s := by
  refine ⟨rfl, rfl, rfl, rfl, rfl, ?_, ?_⟩
  · unfold Session.makePayment
    rcases hck : falsy response.sessionData with _ | _
    · rcases hsd : response.sessionData with _ | d
      · simp [hck, hsd]
      · simp [hck, hsd, Session.updateSessionData, Session.id]
    · simp [hck]
  · unfold Session.submitDetails
    rcases hck : falsy response.sessionData with _ | _
    · rcases hsd : response.sessionData with _ | d
      · simp [hck, hsd]
      · simp [hck, hsd, Session.updateSessionData, Session.id]
    · simp [hck]

/-- C10: after `Core.remove(component)` the components list contains no
entry whose `_id` equals the argument's `_id`; every entry with a
different `_id` is retained, in the original order (the new list is an
order-preserving sublist of the old one); and the removed component is
unmounted exactly once. -/
theorem remove_filters_by_id (components : List UIComponent) (component : UIComponent) :
    (∀ c ∈ (Core.remove components component).components, c._id ≠ component._id) ∧
    List.Sublist (Core.remove components component).components components ∧
    (∀ c ∈ components, c._id ≠ component._id →
      c ∈ (Core.remove components component).components) ∧
    (Core.remove components component).unmounted = [component] ∧
    (Core.remove components component).unmounted.count component = 1 := by
  refine ⟨?_, ?_, ?_, rfl, ?_⟩
  · intro c hc
    have := List.of_mem_filter hc
    simpa using this
  · exact List.filter_sublist components
  · intro c hc hne
    exact List.mem_filter_of_mem hc (by simpa using hne)
  · simp [Core.remove]

/-- Counterexample to C1 as stated: a setup object whose `rootNode` is
present but does not resolve to an existing element and whose
`clientKey` is empty. `initCSF` returns null without constructing a
CSF, but the signal it emits is the missing-clientKey warning — no
RootNodeNotFound signal is emitted. -/
theorem initCSF_rootNode_claim_counterexample :
    findRootNode ⟨[], [], true⟩ (.selector "#container") = none ∧
    initCSF ⟨[], [], true⟩ (some ⟨some "card", some (.selector "#container"), some ""⟩) =
      ⟨.nullHandle, [.warnClientKeyMissing], [],
        some ⟨some "card", some (.selector "#container"), some ""⟩⟩ ∧
    LogEvent.errorRootNodeNotFound ∉
      (initCSF ⟨[], [], true⟩
        (some ⟨some "card", some (.selector "#container"), some ""⟩)).logs ∧
    LogEvent.errorRootNodeMissing ∉
      (initCSF ⟨[], [], true⟩
        (some ⟨some "card", some (.selector "#container"), some ""⟩)).logs := by
  decide

/-- C1 (amended): a setup object lacking a `rootNode` property gets the
RootNodeNotFound error and a null return with no CSF constructed; a
setup object whose `rootNode` is present but does not resolve also gets
a null return with no CSF constructed, with the RootNodeNotFound console
signal when the clientKey is truthy (and a console exists) but the
missing-clientKey warning instead when the clientKey is falsy. -/
theorem initCSF_rootNode_failure (dom : Dom) (p : CSFSetupObject) :
    (p.rootNode = none →
      initCSF dom (some p) = ⟨.nullHandle, [.errorRootNodeMissing], [], some p⟩) ∧
    (∀ rn, p.rootNode = some rn → falsy p.clientKey = false → findRootNode dom rn = none →
      initCSF dom (some p) =
        ⟨.nullHandle, if dom.hasConsole then [.errorRootNodeNotFound] else [], [], some p⟩) ∧
    (∀ rn, p.rootNode = some rn → falsy p.clientKey = true → findRootNode dom rn = none →
      initCSF dom (some p) = ⟨.nullHandle, [.warnClientKeyMissing], [], some p⟩) := by
  unfold initCSF initCSFChecks
  refine ⟨fun h => ?_, fun rn hrn hck hfind => ?_, fun rn hrn hck hfind => ?_⟩
  · simp [show (normalizedSetup p).rootNode = p.rootNode from rfl, h]
  · simp [show (normalizedSetup p).rootNode = p.rootNode from rfl, hrn,
      show (normalizedSetup p).clientKey = p.clientKey from rfl, hck, hfind]
  · simp [show (normalizedSetup p).rootNode = p.rootNode from rfl, hrn,
      show (normalizedSetup p).clientKey = p.clientKey from rfl, hck, hfind]

/-- Witness for C1 at concrete inputs: a setup lacking the `rootNode`
property, and a truthy-clientKey setup whose `rootNode` does not
resolve. -/
theorem initCSF_rootNode_failure_witness :
    initCSF ⟨[], [], true⟩ (some ⟨some "card", none, some "key"⟩) =
      ⟨.nullHandle, [.errorRootNodeMissing], [], some ⟨some "card", none, some "key"⟩⟩ ∧
    initCSF ⟨[], [], true⟩ (some ⟨some "card", some (.element 4), some "key"⟩) =
      ⟨.nullHandle, [.errorRootNodeNotFound], [],
        some ⟨some "card", some (.element 4), some "key"⟩⟩ :=
  ⟨(initCSF_rootNode_failure ⟨[], [], true⟩ ⟨some "card", none, some "key"⟩).1 rfl,
    (initCSF_rootNode_failure ⟨[], [], true⟩ ⟨some "card", some (.element 4), some "key"⟩).2.1
      (.element 4) rfl (by decide) (by decide)⟩

/-- Counterexample to C2 as stated: a setup object whose `clientKey` is
absent (falsy) but whose `rootNode` property is also absent. `initCSF`
aborts with a null return, but the signal it emits is the error-level
missing-rootNode signal — the warning-level clientKey signal is never
emitted. -/
theorem initCSF_clientKey_claim_counterexample :
    falsy (⟨some "card", none, none⟩ : CSFSetupObject).clientKey = true ∧
    initCSF ⟨[3], [("#c", 3)], true⟩ (some ⟨some "card", none, none⟩) =
      ⟨.nullHandle, [.errorRootNodeMissing], [], some ⟨some "card", none, none⟩⟩ ∧
    LogEvent.warnClientKeyMissing ∉
      (initCSF ⟨[3], [("#c", 3)], true⟩ (some ⟨some "card", none, none⟩)).logs := by
  decide

/-- C2 (amended): for every setup object whose `clientKey` is falsy,
`initCSF` aborts with a null return, never throws, and constructs no
CSF; the warning-level clientKey signal is emitted when the `rootNode`
property is present, but when `rootNode` is also absent the abort
happens earlier, at the rootNode check, with the error-level signal
instead. -/
theorem initCSF_falsy_clientKey_aborts (dom : Dom) (p : CSFSetupObject)
    (h : falsy p.clientKey = true) :
    (initCSF dom (some p)).result = .nullHandle ∧
    (initCSF dom (some p)).constructedCSFs = [] ∧
    (∀ msg, (initCSF dom (some p)).result ≠ .thrown msg) ∧
    (p.rootNode ≠ none → (initCSF dom (some p)).logs = [.warnClientKeyMissing]) ∧
    (p.rootNode = none → (initCSF dom (some p)).logs = [.errorRootNodeMissing]) := by
  unfold initCSF initCSFChecks
  rcases hrn : (normalizedSetup p).rootNode with _ | rn
  · have hrn' : p.rootNode = none := hrn
    simp [hrn, hrn']
  · have hck : (normalizedSetup p).clientKey = p.clientKey := rfl
    have hrn' : p.rootNode = some rn := hrn
    simp [hrn, hrn', hck, h]

/-- Witness for C2 at a concrete input with an empty-string clientKey
and a present rootNode. -/
theorem initCSF_falsy_clientKey_aborts_witness :
    (initCSF ⟨[], [], true⟩ (some ⟨none, some (.element 1), some ""⟩)).result =
      .nullHandle ∧
    (initCSF ⟨[], [], true⟩ (some ⟨none, some (.element 1), some ""⟩)).logs =
      [.warnClientKeyMissing] :=
  ⟨(initCSF_falsy_clientKey_aborts ⟨[], [], true⟩ ⟨none, some (.element 1), some ""⟩
      (by decide)).1,
    (initCSF_falsy_clientKey_aborts ⟨[], [], true⟩ ⟨none, some (.element 1), some ""⟩
      (by decide)).2.2.2.1 (by decide)⟩

/-- Counterexample to C4 as stated: a setup object whose `rootNode` is
present but does not resolve and whose `clientKey` is missing. The
claim says RootNodeNotFound is reported; the code checks only the
presence of the `rootNode` property before the clientKey check and
resolves the root node afterwards, so the reported signal is the
missing-clientKey warning. -/
theorem initCSF_check_order_counterexample :
    findRootNode ⟨[], [], true⟩ (.selector "#payment") = none ∧
    initCSF ⟨[], [], true⟩ (some ⟨some "card", some (.selector "#payment"), none⟩) =
      ⟨.nullHandle, [.warnClientKeyMissing], [],
        some ⟨some "card", some (.selector "#payment"), none⟩⟩ ∧
    LogEvent.errorRootNodeNotFound ∉
      (initCSF ⟨[], [], true⟩
        (some ⟨some "card", some (.selector "#payment"), none⟩)).logs := by
  decide

/-- C4 (amended): the `rootNode` own-property check completes before the
clientKey check, but resolution of the root node to an existing document
element happens only after the clientKey check; hence a setup whose
`rootNode` property is absent reports the missing-rootNode error
regardless of the clientKey, while a setup whose `rootNode` is present
(resolving or not) with a falsy clientKey reports the missing-clientKey
warning, and the RootNodeNotFound console signal is reported only when
the clientKey is truthy and resolution fails. -/
theorem initCSF_check_order (dom : Dom) (p : CSFSetupObject) :
    (p.rootNode = none → (initCSF dom (some p)).logs = [.errorRootNodeMissing]) ∧
    (p.rootNode ≠ none → falsy p.clientKey = true →
      (initCSF dom (some p)).logs = [.warnClientKeyMissing]) ∧
    (∀ rn, p.rootNode = some rn → falsy p.clientKey = false → findRootNode dom rn = none →
      (initCSF dom (some p)).logs =
        if dom.hasConsole then [.errorRootNodeNotFound] else []) := by
  unfold initCSF initCSFChecks
  refine ⟨fun h => ?_, fun h hck => ?_, fun rn hrn hck hfind => ?_⟩
  · simp [show (normalizedSetup p).rootNode = p.rootNode from rfl, h]
  · rcases hrn : p.rootNode with _ | rn
    · exact absurd hrn h
    · simp [show (normalizedSetup p).rootNode = p.rootNode from rfl, hrn,
        show (normalizedSetup p).clientKey = p.clientKey from rfl, hck]
  · simp [show (normalizedSetup p).rootNode = p.rootNode from rfl, hrn,
      show (normalizedSetup p).clientKey = p.clientKey from rfl, hck, hfind]

/-- Witness for C4 at a concrete input: rootNode present but
non-resolving, clientKey missing — the warning is what gets logged. -/
theorem initCSF_check_order_witness :
    (initCSF ⟨[], [], true⟩ (some ⟨some "card", some (.selector "#x"), none⟩)).logs =
      [.warnClientKeyMissing] :=
  (initCSF_check_order ⟨[], [], true⟩ ⟨some "card", some (.selector "#x"), none⟩).2.1
    (by decide) rfl

/-- C6: for every setup object passing all the checks (rootNode property
present, truthy clientKey, root node resolving to an existing element),
`initCSF` constructs exactly one CSF instance — from the normalized copy
with the resolved element written into its `rootNode` — and returns
precisely the object produced by that instance's `createReturnObject()`;
the caller never receives the CSF instance itself. -/
theorem initCSF_success_constructs_one_CSF (dom : Dom) (p : CSFSetupObject)
    (rn : RootNodeVal) (el : Nat) (h1 : p.rootNode = some rn)
    (h2 : falsy p.clientKey = false) (h3 : findRootNode dom rn = some el) :
    ∃ myCSF : CSF,
      (initCSF dom (some p)).constructedCSFs = [myCSF] ∧
      (initCSF dom (some p)).result = .handle myCSF.createReturnObject ∧
      myCSF.props = { normalizedSetup p with rootNode := some (.element el) } := by
  refine ⟨⟨{ normalizedSetup p with rootNode := some (.element el) }⟩, ?_, ?_, rfl⟩ <;>
    · unfold initCSF initCSFChecks
      simp [show (normalizedSetup p).rootNode = p.rootNode from rfl, h1,
        show (normalizedSetup p).clientKey = p.clientKey from rfl, h2, h3]

/-- Witness for C6 at a concrete resolving setup. -/
theorem initCSF_success_constructs_one_CSF_witness :
    ∃ myCSF : CSF,
      (initCSF ⟨[7], [("#root", 7)], true⟩
          (some ⟨some "scheme", some (.selector "#root"), some "key"⟩)).constructedCSFs =
        [myCSF] ∧
      (initCSF ⟨[7], [("#root", 7)], true⟩
          (some ⟨some "scheme", some (.selector "#root"), some "key"⟩)).result =
        .handle myCSF.createReturnObject ∧
      myCSF.props =
        { normalizedSetup ⟨some "scheme", some (.selector "#root"), some "key"⟩ with
            rootNode := some (.element 7) } :=
  initCSF_success_constructs_one_CSF ⟨[7], [("#root", 7)], true⟩
    ⟨some "scheme", some (.selector "#root"), some "key"⟩ (.selector "#root") 7
    rfl (by decide) (by decide)

/-- C8: `initCSF` never mutates the caller's setup object — the caller's
object after the call is exactly the object passed in — even though the
internal copy's `type` is normalized and its `rootNode` is overwritten
with the resolved element (visible on every constructed CSF's props). -/
theorem initCSF_does_not_mutate_caller (dom : Dom) (p : CSFSetupObject) :
    (initCSF dom (some p)).callerObj = some p ∧
    ∀ myCSF ∈ (initCSF dom (some p)).constructedCSFs,
      myCSF.props.type = normalizeType p.type ∧
      ∃ el, myCSF.props.rootNode = some (.element el) := by
  unfold initCSF initCSFChecks
  rcases hrn : (normalizedSetup p).rootNode with _ | rn
  · simp [hrn]
  · rcases hck : falsy (normalizedSetup p).clientKey with _ | _
    · rcases hfind : findRootNode dom rn with _ | el
      · simp [hrn, hck, hfind]
      · refine ⟨by simp [hrn, hck, hfind], ?_⟩
        intro myCSF hmem
        simp only [hrn, hck, hfind] at hmem
        simp at hmem
        subst hmem
        exact ⟨rfl, ⟨el, rfl⟩⟩
    · simp [hrn, hck]

/-- Witness for C8 at a concrete successful call: the caller's object
keeps its original 'scheme' type while the constructed CSF's copy
carries the normalized 'card' type. -/
theorem initCSF_does_not_mutate_caller_witness :
    (initCSF ⟨[7], [("#root", 7)], true⟩
        (some ⟨some "scheme", some (.element 7), some "key"⟩)).callerObj =
      some ⟨some "scheme", some (.element 7), some "key"⟩ ∧
    (⟨⟨some "card", some (.element 7), some "key"⟩⟩ : CSF).props.type =
      normalizeType (some "scheme") :=
  ⟨(initCSF_does_not_mutate_caller ⟨[7], [("#root", 7)], true⟩
      ⟨some "scheme", some (.element 7), some "key"⟩).1,
    ((initCSF_does_not_mutate_caller ⟨[7], [("#root", 7)], true⟩
        ⟨some "scheme", some (.element 7), some "key"⟩).2
      ⟨⟨some "card", some (.element 7), some "key"⟩⟩ (by decide)).1⟩

/-- Setting the validity of the field named `n` twice in a row is the
same as setting it once to the final value: the per-field update is
idempotent and later writes win. -/
theorem setFieldValidity_twice (fields : List SecuredField) (n : String) (b b' : Bool) :
    setFieldValidity (setFieldValidity fields n b) n b' = setFieldValidity fields n b' := by
  induction fields with
  | nil => rfl
  | cons f fs ih =>
    simp only [setFieldValidity, List.map_cons, List.map_map] at ih ⊢
    by_cases h : f.name = n
    · simp [h, ih, Function.comp]
    · simp [h, ih, Function.comp]

/-- The aggregate is true exactly when every required field's state is
valid. -/
theorem allValid_eq_true_iff (fields : List SecuredField) :
    allValid fields = true ↔ ∀ f ∈ fields, f.required = true → f.state.isValid = true := by
  simp only [allValid, List.all_eq_true, Bool.or_eq_true, Bool.not_eq_true']
  constructor
  · intro h f hf hreq
    rcases h f hf with hfalse | hvalid
    · rw [hreq] at hfalse; exact absurd hfalse (by simp)
    · exact hvalid
  · intro h f hf
    rcases hreq : f.required with _ | _
    · exact Or.inl rfl
    · exact Or.inr (h f hf hreq)

/-- Setting a field valid cannot falsify an aggregate that was true. -/
theorem allValid_setFieldValidity_true (fields : List SecuredField) (n : String)
    (h : allValid fields = true) : allValid (setFieldValidity fields n true) = true := by
  rw [allValid_eq_true_iff] at h ⊢
  intro f hf hreq
  rw [setFieldValidity, List.mem_map] at hf
  obtain ⟨g, hg, hgf⟩ := hf
  by_cases hname : g.name = n
  · rw [if_pos hname] at hgf
    subst hgf
    rfl
  · rw [if_neg hname] at hgf
    subst hgf
    exact h g hg hreq

/-- C7: `CompositeState.allValid` is true iff every required field's
FieldState.isValid is true (fields marked optional once the brand is
known are excluded); setting any one required field invalid makes
`allValid` false, restoring it to valid makes `allValid` true again
(when the aggregate was true before the toggle), and the recomputation
is idempotent — repeating the same update changes nothing, and
`allValid` is a pure derivation of the FieldStates with no stored copy
to go stale. -/
theorem allValid_required_fields (fields : List SecuredField) (n : String) :
    (allValid fields = true ↔ ∀ f ∈ fields, f.required = true → f.state.isValid = true) ∧
    setFieldValidity (setFieldValidity fields n false) n false =
      setFieldValidity fields n false ∧
    ((∃ f ∈ fields, f.name = n ∧ f.required = true) →
      allValid (setFieldValidity fields n false) = false) ∧
    (allValid fields = true →
      allValid (setFieldValidity (setFieldValidity fields n false) n true) = true) := by
  refine ⟨allValid_eq_true_iff fields, setFieldValidity_twice fields n false false, ?_, ?_⟩
  · rintro ⟨f, hf, hn, hreq⟩
    rw [← Bool.not_eq_true]
    intro hall
    have hmem : ({ f with state := ⟨false⟩ } : SecuredField) ∈ setFieldValidity fields n false := by
      rw [setFieldValidity, List.mem_map]
      exact ⟨f, hf, by rw [if_pos hn]⟩
    have := (allValid_eq_true_iff _).mp hall _ hmem hreq
    exact Bool.false_ne_true this
  · intro hall
    rw [setFieldValidity_twice]
    exact allValid_setFieldValidity_true fields n hall

/-- Witness for C7 at a concrete card setup: PAN and expiry required,
CVC optional; toggling the PAN invalid flips the aggregate to false and
restoring it flips the aggregate back to true. -/
theorem allValid_required_fields_witness :
    allValid (setFieldValidity
      [⟨"encryptedCardNumber", true, ⟨true⟩⟩, ⟨"encryptedExpiryDate", true, ⟨true⟩⟩,
        ⟨"encryptedSecurityCode", false, ⟨false⟩⟩] "encryptedCardNumber" false) = false ∧
    allValid (setFieldValidity (setFieldValidity
      [⟨"encryptedCardNumber", true, ⟨true⟩⟩, ⟨"encryptedExpiryDate", true, ⟨true⟩⟩,
        ⟨"encryptedSecurityCode", false, ⟨false⟩⟩] "encryptedCardNumber" false)
      "encryptedCardNumber" true) = true :=
  ⟨(allValid_required_fields
      [⟨"encryptedCardNumber", true, ⟨true⟩⟩, ⟨"encryptedExpiryDate", true, ⟨true⟩⟩,
        ⟨"encryptedSecurityCode", false, ⟨false⟩⟩] "encryptedCardNumber").2.2.1
      ⟨⟨"encryptedCardNumber", true, ⟨true⟩⟩, by decide, by decide, rfl⟩,
    (allValid_required_fields
      [⟨"encryptedCardNumber", true, ⟨true⟩⟩, ⟨"encryptedExpiryDate", true, ⟨true⟩⟩,
        ⟨"encryptedSecurityCode", false, ⟨false⟩⟩] "encryptedCardNumber").2.2.2 (by decide)⟩

/-- Witness for C10 at a concrete components list with a duplicate id:
the entry with the differing id is retained. -/
theorem remove_filters_by_id_witness :
    (⟨2, 20⟩ : UIComponent) ∈ (Core.remove [⟨1, 10⟩, ⟨2, 20⟩, ⟨1, 30⟩] ⟨1, 99⟩).components :=
  (remove_filters_by_id [⟨1, 10⟩, ⟨2, 20⟩, ⟨1, 30⟩] ⟨1, 99⟩).2.2.1 ⟨2, 20⟩
    (by decide) (by decide)
